import Mathlib

/-!
Verification of the FreeRTOS-Debug library (FreeRTOS-Debug.c / FreeRTOS-Debug.h)
against its natural-language specification.

The C sources are shallowly embedded: task handles and heap pointers are
natural numbers, the FreeRTOS queue is a Lean list (front = head), the
compile-time DEBUG_LEVEL is an explicit parameter, and the heap is tracked
through allocation / write / free event logs.
-/

namespace FreeRTOSDebug

/-- Task handles (TaskHandle_t) are opaque identifiers; modelled as Nat. -/
abbrev TaskHandle := Nat

/-- Debug level DEBUG_OFF from FreeRTOS-Debug.h. -/
def DEBUG_OFF : Nat := 0

/-- Debug level DEBUG_MINIMAL from FreeRTOS-Debug.h. -/
def DEBUG_MINIMAL : Nat := 1

/-- Debug level DEBUG_ERRORS from FreeRTOS-Debug.h. -/
def DEBUG_ERRORS : Nat := 2

/-- Debug level DEBUG_WARNINGS from FreeRTOS-Debug.h. -/
def DEBUG_WARNINGS : Nat := 3

/-- Debug level DEBUG_FULL from FreeRTOS-Debug.h. -/
def DEBUG_FULL : Nat := 4

/-- Debug type marker for informational messages. -/
def DEBUG_TYPE_INFO : Char := 'I'

/-- Debug type marker for warnings. -/
def DEBUG_TYPE_WARNING : Char := 'W'

/-- Debug type marker for errors. -/
def DEBUG_TYPE_ERROR : Char := 'E'

/-- The debug_t struct carried through the queue: a severity marker, the
producing task handle, and a pointer to the heap-allocated message text. -/
structure debug_t where
  type : Char
  task_handle : TaskHandle
  message : Nat
deriving DecidableEq

/-- Embedding of debug_check_level (FreeRTOS-Debug.c lines 60-73),
parameterised by the compile-time DEBUG_LEVEL.  The switch falls through
every case label that the preprocessor keeps (INFO only at DEBUG_FULL,
WARNING from DEBUG_WARNINGS up, ERROR always) to `return true`; any other
character hits `default: return false`. -/
def debug_check_level (level : Nat) (debug_type : Char) : Bool :=
  if debug_type = DEBUG_TYPE_INFO then decide (DEBUG_FULL ≤ level)
  else if debug_type = DEBUG_TYPE_WARNING then decide (DEBUG_WARNINGS ≤ level)
  else if debug_type = DEBUG_TYPE_ERROR then true
  else false

/-- Observable effects of one expansion of the DEBUG_MESSAGE macro
(src/unnamed/part_001 lines 65-73):
whether pvPortMalloc was called, what it returned (none = NULL),
the pointer sprintf rendered into (some none = a write through NULL),
and the message pointer of the record handed to debug_send_message. -/
structure MacroEffect where
  alloc_called : Bool
  allocated : Option Nat
  sprintf_target : Option (Option Nat)
  enqueued : Option (Option Nat)
deriving DecidableEq

/-- Embedding of one DEBUG_MESSAGE expansion.  When DEBUG_LEVEL is below
DEBUG_ERRORS the macro expands to nothing.  Otherwise the body runs the
level check and, when it passes, calls pvPortMalloc (the allocator reply is
the parameter `alloc`), then unconditionally sprintf-renders into the
returned pointer and passes the record on — there is no NULL check in the
source. -/
def DEBUG_MESSAGE_run (level : Nat) (debug_type : Char) (alloc : Option Nat) :
    MacroEffect :=
  if DEBUG_ERRORS ≤ level then
    if debug_check_level level debug_type then
      { alloc_called := true, allocated := alloc,
        sprintf_target := some alloc, enqueued := some alloc }
    else
      { alloc_called := false, allocated := none,
        sprintf_target := none, enqueued := none }
  else
    { alloc_called := false, allocated := none,
      sprintf_target := none, enqueued := none }

/-- Value returned by `snprintf(NULL, 0, ...)`: the number of characters of
the formatted text, excluding the null terminator. -/
def snprintf_null (formatted : List Char) : Nat := formatted.length

/-- Number of bytes requested from pvPortMalloc by DEBUG_MESSAGE
(src/unnamed/part_001 line 69): exactly the snprintf count. -/
def DEBUG_MESSAGE_alloc_size (formatted : List Char) : Nat :=
  snprintf_null formatted

/-- Number of bytes sprintf writes into the buffer (part_001 line 70): the
formatted text plus its null terminator. -/
def sprintf_bytes (formatted : List Char) : Nat := formatted.length + 1

/-- State of the module-level globals touched by debugInitialise
(FreeRTOS-Debug.c lines 164-187): the three callback pointers (modelled as
numeric identifiers), whether xQueueCreate and xTaskCreate ran, the created
queue capacity, and the fields of the static queue_full sentinel that the
initialiser populates. -/
structure InitState where
  global_init_func : Nat
  global_send_func : Nat
  global_reset_func : Nat
  queue_created : Bool
  queue_capacity : Nat
  task_created : Bool
  queue_full_type : Char
  queue_full_th_is_debug_task : Bool
  ret : Nat
deriving DecidableEq

/-- Address of the static debug_task variable; any fixed nonzero value. -/
def debug_task_addr : Nat := 1

/-- Zero-initialised statics before debugInitialise runs. -/
def initState0 : InitState :=
  { global_init_func := 0, global_send_func := 0, global_reset_func := 0,
    queue_created := false, queue_capacity := 0, task_created := false,
    queue_full_type := Char.ofNat 0, queue_full_th_is_debug_task := false,
    ret := 0 }

/-- Embedding of debugInitialise (FreeRTOS-Debug.c lines 164-187),
parameterised by the compile-time DEBUG_LEVEL.  The function always stores
the three callbacks; only when DEBUG_LEVEL >= DEBUG_ERRORS does it create
the queue and the worker task and populate the sentinel; in either case it
returns the address of the static debug_task variable. -/
def debugInitialise (level : Nat) (queue_length : Nat)
    (init_func send_func reset_func : Nat) : InitState :=
  let s := { initState0 with
             global_init_func := init_func,
             global_send_func := send_func,
             global_reset_func := reset_func }
  if DEBUG_ERRORS ≤ level then
    { s with queue_created := true, queue_capacity := queue_length,
             task_created := true,
             queue_full_type := DEBUG_TYPE_ERROR,
             queue_full_th_is_debug_task := true,
             ret := debug_task_addr }
  else
    { s with ret := debug_task_addr }

/-- Runtime state of the mailbox pipeline: the queue contents (front of the
list = front of the FIFO), its capacity, the worker task handle debug_task,
the static queue_full sentinel record, a bump allocator pointer for
pvPortMalloc, and event logs of every allocation, heap write and free made
on this path. -/
structure DebugState where
  queue : List debug_t
  capacity : Nat
  debug_task : TaskHandle
  queue_full : debug_t
  nextPtr : Nat
  allocLog : List (Nat × Nat)
  writeLog : List (Nat × List Char)
  freeLog : List Nat
deriving DecidableEq

/-- uxQueueSpacesAvailable: remaining free slots of the queue. -/
def uxQueueSpacesAvailable (s : DebugState) : Nat :=
  s.capacity - s.queue.length

/-- Size in bytes of the local array `char full_message[] = "Queue Full!\n"`
in debug_send_message: 12 characters plus the null terminator. -/
def QUEUE_FULL_MSG_SIZE : Nat := 13

/-- Embedding of debug_send_message (FreeRTOS-Debug.c lines 80-98) called
with the record `debug` while `currentTask` is running.  The switch on
uxQueueSpacesAvailable:
* 0 spaces: break — the record is dropped, nothing else happens (in
  particular no vPortFree is issued);
* 1 space: the statement `debug.task_handle = debug_task` writes the
  by-value parameter, which is then discarded; pvPortMalloc allocates
  sizeof(full_message) fresh bytes for queue_full.message — the text is
  never copied in — and the global queue_full record is enqueued;
* otherwise: the record, with task_handle stamped to the current task, is
  enqueued by xQueueSend (which succeeds, a slot being free). -/
def debug_send_message (debug : debug_t) (currentTask : TaskHandle)
    (s : DebugState) : DebugState :=
  match uxQueueSpacesAvailable s with
  | 0 => s
  | 1 =>
      let qf := { s.queue_full with message := s.nextPtr }
      { s with queue_full := qf,
               allocLog := s.allocLog ++ [(s.nextPtr, QUEUE_FULL_MSG_SIZE)],
               nextPtr := s.nextPtr + QUEUE_FULL_MSG_SIZE,
               queue := s.queue ++ [qf] }
  | _ + 2 =>
      { s with queue := s.queue ++ [{ debug with task_handle := currentTask }] }

/-- The mailbox-side effect of debugInitialise (FreeRTOS-Debug.c lines
171-181) at DEBUG_LEVEL >= DEBUG_ERRORS: xQueueCreate yields an empty queue
of the requested capacity; xTaskCreate writes debug_task; the sentinel is
populated with type DEBUG_TYPE_ERROR and task_handle = debug_task (its
message field stays at its zero-initialised static value, NULL).
`heapBase` is where the bump allocator starts. -/
def debugInitialiseMailbox (queue_length : Nat) (dt : TaskHandle)
    (heapBase : Nat) : DebugState :=
  { queue := [],
    capacity := queue_length,
    debug_task := dt,
    queue_full := { type := DEBUG_TYPE_ERROR, task_handle := dt, message := 0 },
    nextPtr := heapBase,
    allocLog := [], writeLog := [], freeLog := [] }

/-- xQueueReceive from the worker loop: take the front record if any. -/
def xQueueReceive (s : DebugState) : Option debug_t × DebugState :=
  match s.queue with
  | [] => (none, s)
  | d :: rest => (some d, { s with queue := rest })

/-- Null character terminating C strings. -/
def NUL : Char := Char.ofNat 0

/-- The loop `while(*p != 0) { send(*p); p++; }` run over the bytes stored
from the pointer on: returns the characters sent and how far the pointer
advanced (it stops on, and does not pass, the first null byte). -/
def send_until_null : List Char → List Char × Nat
  | [] => ([], 0)
  | c :: cs =>
      if c = NUL then ([], 0)
      else
        let r := send_until_null cs
        (c :: r.1, r.2 + 1)

/-- Result of one iteration of the worker loop: the characters handed to
global_send_func in order, and the pointer passed to vPortFree. -/
structure RenderResult where
  output : List Char
  freed_ptr : Nat
deriving DecidableEq

/-- Embedding of one iteration of debug_handler (FreeRTOS-Debug.c lines
112-145) on the dequeued record `d`.  `nameBuf` is the byte content behind
pcTaskGetName(d.task_handle) and `msgBuf` the byte content behind
d.message, each including their terminator.  The iteration sends the type
marker, space dash space, the task name, space dash space, the message and
a newline; it then calls vPortFree on message_ptr — which the second while
loop has advanced to the terminator of the message. -/
def debug_handler_iteration (nameBuf msgBuf : List Char) (d : debug_t) :
    RenderResult :=
  let n := send_until_null nameBuf
  let m := send_until_null msgBuf
  { output := d.type :: ' ' :: '-' :: ' ' ::
      (n.1 ++ ' ' :: '-' :: ' ' :: (m.1 ++ ['\n'])),
    freed_ptr := d.message + m.2 }

/-- Sample record: an Info message from task 5, text at address 100. -/
def rA : debug_t := { type := 'I', task_handle := 5, message := 100 }

/-- Sample record: a Warning from task 5, text at address 200. -/
def rB : debug_t := { type := 'W', task_handle := 5, message := 200 }

/-- Sample record: an Error from task 5, text at address 300. -/
def rC : debug_t := { type := 'E', task_handle := 5, message := 300 }

/-- Sample record: an Error from task 5, text at address 400. -/
def rD : debug_t := { type := 'E', task_handle := 5, message := 400 }

/-- Mailbox of capacity 2 right after debugInitialise, worker handle 0,
allocator starting at 1000. -/
def sampleInit : DebugState := debugInitialiseMailbox 2 0 1000

/-- sampleInit after one successful enqueue: exactly one free slot left. -/
def sampleFull1 : DebugState := debug_send_message rA 5 sampleInit

/-- sampleFull1 after a second enqueue attempt: the overflow path ran, the
queue is full. -/
def sampleOverflow : DebugState := debug_send_message rB 5 sampleFull1

/-- sampleOverflow after the worker drained both queued records. -/
def sampleDrained : DebugState :=
  (xQueueReceive (xQueueReceive sampleOverflow).2).2

/-- sampleDrained after one successful enqueue: one free slot again. -/
def sampleRefill : DebugState := debug_send_message rC 5 sampleDrained

/-- sampleRefill after another enqueue attempt: the second overflow event. -/
def sampleOverflow2 : DebugState := debug_send_message rD 5 sampleRefill

/-- C6: debug_check_level accepts Info, Warning and Error at DEBUG_FULL,
Warning and Error at DEBUG_WARNINGS, only Error at DEBUG_ERRORS, and for
every severity it rejects the DEBUG_MESSAGE entry point performs no
allocation and no enqueue. -/
theorem debug_check_level_threshold (t : Char) (level : Nat)
    (alloc : Option Nat) :
    (debug_check_level DEBUG_FULL t = true ↔
      (t = DEBUG_TYPE_INFO ∨ t = DEBUG_TYPE_WARNING ∨ t = DEBUG_TYPE_ERROR))
    ∧ (debug_check_level DEBUG_WARNINGS t = true ↔
      (t = DEBUG_TYPE_WARNING ∨ t = DEBUG_TYPE_ERROR))
    ∧ (debug_check_level DEBUG_ERRORS t = true ↔ t = DEBUG_TYPE_ERROR)
    ∧ (debug_check_level level t = false →
        (DEBUG_MESSAGE_run level t alloc).alloc_called = false
        ∧ (DEBUG_MESSAGE_run level t alloc).enqueued = none) := by
  refine ⟨?_, ?_, ?_, ?_⟩
  · unfold debug_check_level
    split_ifs with h1 h2 h3 <;>
      simp_all [DEBUG_TYPE_INFO, DEBUG_TYPE_WARNING, DEBUG_TYPE_ERROR,
        DEBUG_FULL, DEBUG_WARNINGS, DEBUG_ERRORS]
  · unfold debug_check_level
    split_ifs with h1 h2 h3 <;>
      simp_all [DEBUG_TYPE_INFO, DEBUG_TYPE_WARNING, DEBUG_TYPE_ERROR,
        DEBUG_FULL, DEBUG_WARNINGS, DEBUG_ERRORS]
  · unfold debug_check_level
    split_ifs with h1 h2 h3 <;>
      simp_all [DEBUG_TYPE_INFO, DEBUG_TYPE_WARNING, DEBUG_TYPE_ERROR,
        DEBUG_FULL, DEBUG_WARNINGS, DEBUG_ERRORS]
  · intro h
    unfold DEBUG_MESSAGE_run
    split_ifs with hl hc
    · rw [h] at hc; cases hc
    · exact ⟨rfl, rfl⟩
    · exact ⟨rfl, rfl⟩

/-- Witness for debug_check_level_threshold: at DEBUG_ERRORS an Info
message is rejected, and the macro neither allocates nor enqueues. -/
theorem debug_check_level_threshold_witness :
    debug_check_level DEBUG_ERRORS 'I' = false
    ∧ (DEBUG_MESSAGE_run DEBUG_ERRORS 'I' (some 7)).alloc_called = false
    ∧ (DEBUG_MESSAGE_run DEBUG_ERRORS 'I' (some 7)).enqueued = none :=
  ⟨by decide,
   ((debug_check_level_threshold 'I' DEBUG_ERRORS (some 7)).2.2.2
      (by decide)).1,
   ((debug_check_level_threshold 'I' DEBUG_ERRORS (some 7)).2.2.2
      (by decide)).2⟩

/-- C10: at a compile-time DEBUG_LEVEL below DEBUG_ERRORS, debugInitialise
still stores the three callbacks, creates neither the queue nor the worker
task (so the static debug_task is never written), returns the address of
the static debug_task variable (non-null), and ignores queue_length. -/
theorem debugInitialise_below_errors (level ql ql2 i se re : Nat)
    (h : level < DEBUG_ERRORS) :
    (debugInitialise level ql i se re).global_init_func = i
    ∧ (debugInitialise level ql i se re).global_send_func = se
    ∧ (debugInitialise level ql i se re).global_reset_func = re
    ∧ (debugInitialise level ql i se re).queue_created = false
    ∧ (debugInitialise level ql i se re).task_created = false
    ∧ (debugInitialise level ql i se re).ret = debug_task_addr
    ∧ debug_task_addr ≠ 0
    ∧ debugInitialise level ql i se re = debugInitialise level ql2 i se re := by
  have hn : ¬ (DEBUG_ERRORS ≤ level) := by omega
  simp [debugInitialise, hn, initState0, debug_task_addr]

/-- Witness for debugInitialise_below_errors at DEBUG_MINIMAL. -/
theorem debugInitialise_below_errors_witness :
    (1 : Nat) < DEBUG_ERRORS
    ∧ ((debugInitialise 1 4 10 11 12).global_init_func = 10
    ∧ (debugInitialise 1 4 10 11 12).global_send_func = 11
    ∧ (debugInitialise 1 4 10 11 12).global_reset_func = 12
    ∧ (debugInitialise 1 4 10 11 12).queue_created = false
    ∧ (debugInitialise 1 4 10 11 12).task_created = false
    ∧ (debugInitialise 1 4 10 11 12).ret = debug_task_addr
    ∧ debug_task_addr ≠ 0
    ∧ debugInitialise 1 4 10 11 12 = debugInitialise 1 9 10 11 12) :=
  ⟨by decide, debugInitialise_below_errors 1 4 9 10 11 12 (by decide)⟩

/-- C3 is a code bug: for the two-character formatted text "Hi" the macro
allocates snprintf(NULL, 0, ...) = 2 bytes, while the following sprintf
writes 3 bytes (text plus terminator): the buffer is one byte short of the
size the specification requires, and sprintf writes past its end. -/
theorem DEBUG_MESSAGE_alloc_off_by_one :
    DEBUG_MESSAGE_alloc_size ['H', 'i'] = 2
    ∧ sprintf_bytes ['H', 'i'] = 3
    ∧ DEBUG_MESSAGE_alloc_size ['H', 'i'] < sprintf_bytes ['H', 'i'] := by
  decide

/-- C8 is a code bug: when pvPortMalloc returns NULL and the level check
passes, DEBUG_MESSAGE still sprintf-renders through the NULL pointer and
still hands the record (with a NULL message) to debug_send_message, instead
of failing silently. -/
theorem DEBUG_MESSAGE_null_alloc_not_silent :
    (DEBUG_MESSAGE_run DEBUG_FULL DEBUG_TYPE_ERROR none).sprintf_target
      = some none
    ∧ (DEBUG_MESSAGE_run DEBUG_FULL DEBUG_TYPE_ERROR none).enqueued
      = some none := by
  decide

/-- C2 is a code bug: after rendering a one-character message stored at
address 100, the worker passes address 101 — the advanced message_ptr,
pointing at the terminator — to vPortFree, not the pointer the allocation
returned. -/
theorem debug_handler_frees_wrong_pointer :
    (debug_handler_iteration
      ('d' :: 'e' :: 'b' :: 'u' :: 'g' :: [NUL])
      ('A' :: [NUL])
      { type := 'E', task_handle := 0, message := 100 }).freed_ptr = 101
    ∧ (101 : Nat) ≠ 100 := by
  decide

/-- Helper: the send loop over a null-free string followed by its
terminator emits the whole string and advances the pointer by its length. -/
theorem send_until_null_append_nul (l : List Char) (h : NUL ∉ l) :
    send_until_null (l ++ [NUL]) = (l, l.length) := by
  induction l with
  | nil => simp [send_until_null]
  | cons c cs ih =>
      have hc : ¬ (c = NUL) := by
        intro hcn
        exact h (hcn ▸ List.mem_cons_self c cs)
      have hcs : NUL ∉ cs := fun hm => h (List.mem_cons_of_mem c hm)
      simp [send_until_null, hc, ih hcs]

/-- C9: for a record whose task name and message are null-free strings, one
worker iteration emits exactly the severity marker, space dash space, the
task name, space dash space, the message text, and a single newline. -/
theorem worker_output_layout (name msg : List Char) (d : debug_t)
    (hname : NUL ∉ name) (hmsg : NUL ∉ msg) :
    (debug_handler_iteration (name ++ [NUL]) (msg ++ [NUL]) d).output =
      [d.type] ++ [' ', '-', ' '] ++ name ++ [' ', '-', ' '] ++ msg
        ++ ['\n'] := by
  unfold debug_handler_iteration
  rw [send_until_null_append_nul name hname,
      send_until_null_append_nul msg hmsg]
  simp

/-- Witness for worker_output_layout on task name "T" and message "Hi". -/
theorem worker_output_layout_witness :
    NUL ∉ ['T'] ∧ NUL ∉ ['H', 'i']
    ∧ (debug_handler_iteration (['T'] ++ [NUL]) (['H', 'i'] ++ [NUL])
        rC).output =
      [rC.type] ++ [' ', '-', ' '] ++ ['T'] ++ [' ', '-', ' '] ++ ['H', 'i']
        ++ ['\n'] :=
  ⟨by decide, by decide,
   worker_output_layout ['T'] ['H', 'i'] rC (by decide) (by decide)⟩

/-- C7 is a code bug: on both drop paths — exactly one free slot (the
overflow path) and zero free slots — debug_send_message issues no
vPortFree at all: the free log stays empty, so the dropped records at
addresses 200 and 300 leak. -/
theorem drop_paths_do_not_free :
    uxQueueSpacesAvailable sampleFull1 = 1
    ∧ (debug_send_message rB 5 sampleFull1).freeLog = []
    ∧ uxQueueSpacesAvailable sampleOverflow = 0
    ∧ (debug_send_message rC 5 sampleOverflow).freeLog = [] := by
  decide

/-- C5 is a code bug: on each overflow event the code allocates
sizeof("Queue Full!\n") = 13 fresh bytes for queue_full.message (address
1000 on the first overflow, 1013 on the second) and never writes the text
into them — the write log stays empty — so the enqueued sentinel points at
fresh, unwritten storage rather than a reusable buffer holding the text.
Only the severity field matches the specification. -/
theorem queue_full_message_never_written :
    sampleOverflow.queue_full.type = DEBUG_TYPE_ERROR
    ∧ sampleOverflow.queue.getLast? = some sampleOverflow.queue_full
    ∧ sampleOverflow.queue_full.message = 1000
    ∧ sampleOverflow.allocLog = [(1000, 13)]
    ∧ sampleOverflow.writeLog = []
    ∧ sampleOverflow2.queue_full.message = 1013
    ∧ sampleOverflow2.allocLog = [(1000, 13), (1013, 13)]
    ∧ sampleOverflow2.writeLog = [] := by
  decide

/-- C4 counterexample: with one free slot, current task 5 and worker handle
0, the record enqueued by the overflow path is the sentinel and its
task_handle is 0, the worker handle stamped at initialisation — not the
current producer 5.  (The source assigns the current handle only to the
discarded by-value copy of the dropped record.) -/
theorem sentinel_not_stamped_with_current_task :
    uxQueueSpacesAvailable sampleFull1 = 1
    ∧ sampleOverflow.queue.getLast? = some sampleOverflow.queue_full
    ∧ sampleOverflow.queue_full.task_handle = 0
    ∧ (0 : Nat) ≠ 5 := by
  decide

/-- C4 amended: whenever the mailbox has exactly one free slot, the record
enqueued is the sentinel carrying in task_handle the worker handle
debug_task stored into it at initialisation, for every current task. -/
theorem sentinel_carries_debug_task (s : DebugState) (r : debug_t)
    (ct : TaskHandle) (h1 : uxQueueSpacesAvailable s = 1)
    (h2 : s.queue_full.task_handle = s.debug_task) :
    (debug_send_message r ct s).queue =
      s.queue ++ [{ s.queue_full with message := s.nextPtr }]
    ∧ ({ s.queue_full with message := s.nextPtr } : debug_t).task_handle
      = s.debug_task := by
  constructor
  · unfold debug_send_message
    rw [h1]
  · simpa using h2

/-- Witness for sentinel_carries_debug_task at the sample state with one
free slot, current task 5. -/
theorem sentinel_carries_debug_task_witness :
    uxQueueSpacesAvailable sampleFull1 = 1
    ∧ sampleFull1.queue_full.task_handle = sampleFull1.debug_task
    ∧ ((debug_send_message rB 5 sampleFull1).queue =
        sampleFull1.queue
          ++ [{ sampleFull1.queue_full with message := sampleFull1.nextPtr }]
      ∧ ({ sampleFull1.queue_full with
            message := sampleFull1.nextPtr } : debug_t).task_handle
        = sampleFull1.debug_task) :=
  ⟨by decide, by decide,
   sentinel_carries_debug_task sampleFull1 rB 5 (by decide) (by decide)⟩

/-- Helper: stamping a record whose task_handle already equals the current
task is the identity. -/
theorem stamp_eq_self (r : debug_t) (ct : TaskHandle)
    (h : r.task_handle = ct) : { r with task_handle := ct } = r := by
  cases r
  simp_all

/-- Helper: mapping the current-task stamp over records all produced by the
current task changes nothing. -/
theorem map_stamp_id (A : List debug_t) (ct : TaskHandle)
    (h : ∀ r ∈ A, r.task_handle = ct) :
    A.map (fun r => { r with task_handle := ct }) = A := by
  induction A with
  | nil => rfl
  | cons r rs ih =>
      have hr : r.task_handle = ct := h r (List.mem_cons_self r rs)
      have hrs : ∀ x ∈ rs, x.task_handle = ct :=
        fun x hx => h x (List.mem_cons_of_mem r hx)
      simp [stamp_eq_self r ct hr, ih hrs]

/-- Helper: one enqueue with at least two free slots appends the stamped
record and changes nothing else. -/
theorem debug_send_message_default (r : debug_t) (ct : TaskHandle)
    (s : DebugState) (h : 2 ≤ uxQueueSpacesAvailable s) :
    debug_send_message r ct s =
      { s with queue := s.queue ++ [{ r with task_handle := ct }] } := by
  obtain ⟨k, hk⟩ : ∃ k, uxQueueSpacesAvailable s = k + 2 :=
    ⟨uxQueueSpacesAvailable s - 2, by omega⟩
  unfold debug_send_message
  rw [hk]

/-- Helper: as long as every step still sees at least two free slots, a
fold of debug_send_message just appends the stamped records in order. -/
theorem foldl_send_fill (ct : TaskHandle) :
    ∀ (rs : List debug_t) (s : DebugState),
      rs.length + 1 ≤ s.capacity - s.queue.length →
      rs.foldl (fun s r => debug_send_message r ct s) s =
        { s with queue :=
            s.queue ++ rs.map (fun r => { r with task_handle := ct }) } := by
  intro rs
  induction rs with
  | nil => intro s _; simp
  | cons r rs ih =>
      intro s h
      have hlen : rs.length + 1 + 1 ≤ s.capacity - s.queue.length := by
        simpa [Nat.add_comm, Nat.add_assoc] using h
      have hsp : 2 ≤ uxQueueSpacesAvailable s := by
        unfold uxQueueSpacesAvailable
        omega
      rw [List.foldl_cons, debug_send_message_default r ct s hsp, ih]
      · simp
      · simp
        omega

/-- C1: starting from the freshly initialised mailbox of capacity N >= 2,
N + 1 enqueue calls with records all produced by the current task leave the
queue holding exactly N records: the first N - 1 records unchanged in FIFO
order followed by the overflow sentinel (severity Error, worker handle,
message at the fresh allocation); moreover, with zero free slots a call
changes nothing, with exactly one free slot it enqueues the sentinel in
place of the incoming record, and with at least two free slots it enqueues
the incoming record itself. -/
theorem mailbox_enqueue_overflow_policy
    (N : Nat) (hN : 2 ≤ N) (dt ct : TaskHandle) (hb : Nat)
    (rs : List debug_t) (hlen : rs.length = N + 1)
    (hwf : ∀ r ∈ rs, r.task_handle = ct) :
    ((rs.foldl (fun s r => debug_send_message r ct s)
        (debugInitialiseMailbox N dt hb)).queue =
      rs.take (N - 1)
        ++ [{ type := DEBUG_TYPE_ERROR, task_handle := dt, message := hb }])
    ∧ (rs.foldl (fun s r => debug_send_message r ct s)
        (debugInitialiseMailbox N dt hb)).queue.length = N
    ∧ (∀ (s : DebugState) (r : debug_t), uxQueueSpacesAvailable s = 0 →
        debug_send_message r ct s = s)
    ∧ (∀ (s : DebugState) (r : debug_t), uxQueueSpacesAvailable s = 1 →
        (debug_send_message r ct s).queue =
          s.queue ++ [{ s.queue_full with message := s.nextPtr }])
    ∧ (∀ (s : DebugState) (r : debug_t), 2 ≤ uxQueueSpacesAvailable s →
        (debug_send_message r ct s).queue =
          s.queue ++ [{ r with task_handle := ct }]) := by
  have hdroplen : (rs.drop (N - 1)).length = 2 := by
    rw [List.length_drop, hlen]
    omega
  obtain ⟨b, c, hbc⟩ := List.length_eq_two.mp hdroplen
  have hsplit : rs = rs.take (N - 1) ++ [b, c] := by
    conv_lhs => rw [← List.take_append_drop (N - 1) rs]
    rw [hbc]
  have htakelen : (rs.take (N - 1)).length = N - 1 := by
    rw [List.length_take, hlen]
    omega
  have hwfA : ∀ r ∈ rs.take (N - 1), r.task_handle = ct :=
    fun r hr => hwf r (List.mem_of_mem_take hr)
  have hfill :
      (rs.take (N - 1)).foldl (fun s r => debug_send_message r ct s)
        (debugInitialiseMailbox N dt hb) =
      { debugInitialiseMailbox N dt hb with queue := rs.take (N - 1) } := by
    rw [foldl_send_fill ct (rs.take (N - 1)) (debugInitialiseMailbox N dt hb)
      (by simp [debugInitialiseMailbox, htakelen]; omega)]
    simp [map_stamp_id (rs.take (N - 1)) ct hwfA, debugInitialiseMailbox]
  have hmain :
      (rs.foldl (fun s r => debug_send_message r ct s)
        (debugInitialiseMailbox N dt hb)).queue =
      rs.take (N - 1)
        ++ [{ type := DEBUG_TYPE_ERROR, task_handle := dt, message := hb }] := by
    conv_lhs => rw [hsplit]
    rw [List.foldl_append, hfill]
    have hsp1 : uxQueueSpacesAvailable
        { debugInitialiseMailbox N dt hb with queue := rs.take (N - 1) } = 1 := by
      simp [uxQueueSpacesAvailable, debugInitialiseMailbox, htakelen]
      omega
    simp only [List.foldl_cons, List.foldl_nil]
    rw [show debug_send_message b ct
        { debugInitialiseMailbox N dt hb with queue := rs.take (N - 1) } =
      { debugInitialiseMailbox N dt hb with
          queue := rs.take (N - 1)
            ++ [{ type := DEBUG_TYPE_ERROR, task_handle := dt, message := hb }],
          queue_full :=
            { type := DEBUG_TYPE_ERROR, task_handle := dt, message := hb },
          allocLog := [(hb, QUEUE_FULL_MSG_SIZE)],
          nextPtr := hb + QUEUE_FULL_MSG_SIZE } from by
      unfold debug_send_message
      rw [hsp1]
      simp [debugInitialiseMailbox]]
    have hsp0 : uxQueueSpacesAvailable
        { debugInitialiseMailbox N dt hb with
            queue := rs.take (N - 1)
              ++ [{ type := DEBUG_TYPE_ERROR, task_handle := dt,
                    message := hb }],
            queue_full :=
              { type := DEBUG_TYPE_ERROR, task_handle := dt, message := hb },
            allocLog := [(hb, QUEUE_FULL_MSG_SIZE)],
            nextPtr := hb + QUEUE_FULL_MSG_SIZE } = 0 := by
      simp [uxQueueSpacesAvailable, debugInitialiseMailbox, htakelen]
      omega
    rw [show ∀ (s : DebugState), uxQueueSpacesAvailable s = 0 →
        debug_send_message c ct s = s from fun s h0 => by
      unfold debug_send_message
      rw [h0]]
    · exact hsp0
  refine ⟨hmain, ?_, ?_, ?_, ?_⟩
  · rw [hmain]
    simp [htakelen]
    omega
  · intro s r h0
    unfold debug_send_message
    rw [h0]
  · intro s r h1
    unfold debug_send_message
    rw [h1]
  · intro s r h2
    rw [debug_send_message_default r ct s h2]

/-- Witness for mailbox_enqueue_overflow_policy: capacity 2, worker handle
0, current task 5, three enqueue attempts — the queue ends as the first
record followed by the sentinel. -/
theorem mailbox_enqueue_overflow_policy_witness :
    (2 : Nat) ≤ 2
    ∧ [rA, rB, rC].length = 2 + 1
    ∧ (∀ r ∈ [rA, rB, rC], r.task_handle = 5)
    ∧ ([rA, rB, rC].foldl (fun s r => debug_send_message r 5 s)
        (debugInitialiseMailbox 2 0 1000)).queue =
      [rA, rB, rC].take (2 - 1)
        ++ [{ type := DEBUG_TYPE_ERROR, task_handle := 0, message := 1000 }] :=
  ⟨by decide, by decide, by decide,
   (mailbox_enqueue_overflow_policy 2 (by decide) 0 5 1000 [rA, rB, rC]
      (by decide) (by decide)).1⟩

end FreeRTOSDebug
